import Mathlib

/-!
Verification development for the AiGovern analysis pipeline.

The definitions below are a shallow embedding of the TypeScript sources:

* src/server/analyzers/bias-analyzer.ts      (statistics engine)
* src/server/document-processors/pii-detector.ts (PII detection engine)
* src/server/jobs/queue.ts                   (Bull queue configuration)
* src/server/jobs/analysis-processor.ts      (orchestrator / worker)
* src/server/storage.ts                      (analysis record store)

Modelling conventions:

* JavaScript numbers are modelled by the rationals.  Every arithmetic
  operation performed by the embedded code (sums, means, ratios of counts)
  is exact on the inputs used in the theorems, and the directional facts
  proved (ratios of nonnegative numbers bounded by 1) also hold for the
  floating point evaluation, whose rounding is monotone and exact at 0, 1.
  The only irrational value, Math.sqrt in the standard deviation, is
  represented by its square (the variance).
* Rows parsed from CSV/JSON are association lists from column name to a
  JavaScript value; a lookup returning none models an undefined property.
* I/O (S3 fetches, Redis, Postgres) is modelled by explicit state passing;
  each fallible external call becomes an Except- or Option-valued input.
-/

namespace AiGovern

/-- A JavaScript value as it occurs in a parsed dataset row: a string, a
number (modelled as a rational), a boolean, or null.  A missing property
(undefined) is modelled as a none at the use sites. -/
inductive JsVal where
  | str (s : String)
  | num (q : ℚ)
  | bool (b : Bool)
  | null
deriving DecidableEq

/-- A parsed record: association list from column name to value, first
binding wins (JavaScript object keys are unique). -/
abbrev Row := List (String × JsVal)

/-- Property read row[column]: none models undefined. -/
def rowGet (row : Row) (column : String) : Option JsVal :=
  (row.find? (fun p => p.1 = column)).map (·.2)

/-- The filter used by calculateDistribution (bias-analyzer.ts line 76):
a value is dropped when it is null, undefined or the empty string. -/
def isMissing : Option JsVal → Bool
  | none => true
  | some .null => true
  | some (.str s) => s = ""
  | _ => false

/-- The row-skipping test of calculateDisparateImpact (bias-analyzer.ts
lines 158-161): only undefined and null are skipped there, not "". -/
def isNullish : Option JsVal → Bool
  | none => true
  | some .null => true
  | _ => false

/-- First-occurrence deduplication with the order produced by the
JavaScript idiom spreading a Set, as in bias-analyzer.ts line 141. -/
def dedupFirstAux {α : Type} [DecidableEq α] (seen : List α) : List α → List α
  | [] => []
  | x :: xs =>
      if x ∈ seen then dedupFirstAux seen xs
      else x :: dedupFirstAux (x :: seen) xs

/-- Spread of a Set built from a list: keeps the first occurrence of each
element, in first-appearance order. -/
def dedupFirst {α : Type} [DecidableEq α] (l : List α) : List α :=
  dedupFirstAux [] l

/-- Substring test on character lists: some index yields the needle. -/
def strContains (hay needle : String) : Bool :=
  (List.range (hay.data.length + 1)).any
    (fun i => (hay.data.drop i).take needle.data.length = needle.data)

/-- Number of indices of hay at which needle occurs (used to state that a
text contains a given substring exactly once). -/
def occurrenceCount (hay needle : String) : Nat :=
  ((List.range (hay.data.length + 1)).filter
    (fun i => (hay.data.drop i).take needle.data.length = needle.data)).length

/-- Decimal digit character, for the model of the JavaScript decimal
rendering of integers. -/
def digitCh (d : Nat) : Char :=
  match d with
  | 0 => '0' | 1 => '1' | 2 => '2' | 3 => '3' | 4 => '4'
  | 5 => '5' | 6 => '6' | 7 => '7' | 8 => '8' | _ => '9'

/-- Numeric value of a decimal digit character (inverse of digitCh on
digits; other characters map to 0 and are excluded by the callers). -/
def chVal (c : Char) : Nat :=
  match c with
  | '0' => 0 | '1' => 1 | '2' => 2 | '3' => 3 | '4' => 4
  | '5' => 5 | '6' => 6 | '7' => 7 | '8' => 8 | '9' => 9
  | _ => 0

/-- Decimal digit characters of a natural number, most significant digit
first; the fuel argument bounds the number of divisions and makes the
recursion structural. -/
def decCharsAux : Nat → Nat → List Char
  | 0, _ => []
  | fuel + 1, n =>
      if n < 10 then [digitCh n]
      else decCharsAux fuel (n / 10) ++ [digitCh (n % 10)]

/-- Decimal digit string of a natural number, most significant digit
first: the JavaScript ToString of a nonnegative integer. -/
def decChars (n : Nat) : List Char := decCharsAux (n + 1) n

/-- The JavaScript decimal rendering of a natural number, as interpolated
by template literals. -/
def decString (n : Nat) : String := ⟨decChars n⟩

/-- Big-endian decimal evaluation of a character list (parsing inverse of
decChars, used to prove the rendering injective). -/
def decVal (l : List Char) : Nat :=
  l.foldl (fun a c => a * 10 + chVal c) 0

theorem chVal_digitCh (d : Nat) (h : d < 10) : chVal (digitCh d) = d := by
  interval_cases d <;> rfl

theorem decVal_append_digit (l : List Char) (c : Char) :
    decVal (l ++ [c]) = decVal l * 10 + chVal c := by
  simp [decVal, List.foldl_append]

theorem decVal_decCharsAux (fuel n : Nat) (hf : n < fuel) :
    decVal (decCharsAux fuel n) = n := by
  induction fuel generalizing n with
  | zero => omega
  | succ fuel ih =>
    rw [decCharsAux]
    by_cases h : n < 10
    · simp only [h, if_pos]
      simpa [decVal] using chVal_digitCh n h
    · simp only [h, if_neg, not_false_iff]
      rw [decVal_append_digit,
        ih (n / 10) (by omega),
        chVal_digitCh (n % 10) (Nat.mod_lt _ (by norm_num))]
      omega

theorem decVal_decChars (n : Nat) : decVal (decChars n) = n :=
  decVal_decCharsAux (n + 1) n (Nat.lt_succ_self n)

theorem decChars_injective {m n : Nat} (h : decChars m = decChars n) : m = n := by
  have := congrArg decVal h
  rwa [decVal_decChars, decVal_decChars] at this

theorem decString_injective {m n : Nat} (h : decString m = decString n) : m = n :=
  decChars_injective (congrArg String.data h)

/-- Signed decimal rendering of an integer (JavaScript ToString on
integral numbers). -/
def intStr (i : Int) : String :=
  if i < 0 then "-" ++ decString i.natAbs else decString i.natAbs

/-- Model of the JavaScript ToString applied to a number.  Exact for
integral values; a non-integral rational is rendered as num/den, which is
adequate here because the analyzer only uses this coercion as an object
key and no theorem below depends on the rendering of non-integral
numbers. -/
def jsNumStr (q : ℚ) : String :=
  if q.den = 1 then intStr q.num
  else intStr q.num ++ "/" ++ decString q.den

/-- JavaScript object-key coercion of a value (property keys are always
strings, so distinct values with equal renderings share a key). -/
def jsValKey : JsVal → String
  | .str s => s
  | .num q => jsNumStr q
  | .bool true => "true"
  | .bool false => "false"
  | .null => "null"

/-- Object-key coercion including undefined. -/
def jsOptKey : Option JsVal → String
  | none => "undefined"
  | some v => jsValKey v

/-- Whitespace for the model of the JavaScript Number() trimming. -/
def isWs (c : Char) : Bool :=
  c = ' ' || c = '\t' || c = '\n' || c = '\r'

/-- Model of JavaScript Number(string) on the decimal fragment of its
grammar: surrounding whitespace is trimmed, the empty string converts to
0, otherwise an optional sign followed by decimal digits with an optional
fractional part.  Hexadecimal, exponent and Infinity forms are not
modelled; none models NaN.  (bias-analyzer.ts line 91 uses this only as a
numeric-or-not test plus conversion.) -/
def parseDecimal (s : String) : Option ℚ :=
  let l := (((s.data.dropWhile isWs).reverse.dropWhile isWs).reverse)
  if l = [] then some 0
  else
    let signed : ℚ × List Char :=
      match l with
      | '-' :: r => (-1, r)
      | '+' :: r => (1, r)
      | _ => (1, l)
    let intPart := signed.2.takeWhile Char.isDigit
    let rest := signed.2.dropWhile Char.isDigit
    match rest with
    | [] => if intPart = [] then none else some (signed.1 * decVal intPart)
    | '.' :: fr =>
        if fr.all Char.isDigit ∧ (intPart ≠ [] ∨ fr ≠ []) then
          some (signed.1 * ((decVal intPart : ℚ) + (decVal fr : ℚ) / (10 ^ fr.length)))
        else none
    | _ => none

/-- Model of JavaScript Number(v) for the values of this data model; none
models NaN, so the check !isNaN(Number(v)) is isSome here. -/
def jsToNumber : JsVal → Option ℚ
  | .num q => some q
  | .bool b => some (if b then 1 else 0)
  | .null => some 0
  | .str s => parseDecimal s

/-- One step of frequency counting with JavaScript object semantics: the
first assignment fixes the key position, later increments update in
place (bias-analyzer.ts lines 81-84). -/
def freqInsert (acc : List (String × Nat)) (k : String) : List (String × Nat) :=
  if acc.any (fun p => p.1 = k) then
    acc.map (fun p => if p.1 = k then (p.1, p.2 + 1) else p)
  else acc ++ [(k, 1)]

/-- Frequency map over the (string-coerced) values of a column. -/
def frequencies (vs : List JsVal) : List (String × Nat) :=
  vs.foldl (fun acc v => freqInsert acc (jsValKey v)) []

/-- Numeric summary computed by calculateNumericStats (bias-analyzer.ts
lines 97-133).  varianceVal is the square of the JavaScript stdDev field
(Math.sqrt is irrational; its square is what every comparison below
uses). -/
structure NumericStats where
  min : ℚ
  max : ℚ
  mean : ℚ
  median : ℚ
  varianceVal : ℚ
  q1 : ℚ
  q3 : ℚ
  outliers : Nat
  outliersPercent : ℚ
deriving DecidableEq

/-- Distribution entry produced by calculateDistribution (bias-analyzer.ts
lines 69-94).  The JavaScript object spreads the numeric stats into the
entry only when every value is numeric; that optional presence is the
numeric field below.  uniqueValues and distribution are absent on the
count-0 early returns. -/
structure ColumnStats where
  count : Nat
  uniqueValues : Option Nat
  distribution : Option (List (String × Nat))
  numeric : Option NumericStats
deriving DecidableEq

/-- Stable insertion into a list sorted by ascending rational key: the new
element goes after every element whose key is less than or equal to its
key, which is the placement of the stable JavaScript Array.sort with the
comparator (a, b) => a - b when elements are appended left to right. -/
def insertByKey {α : Type} (key : α → ℚ) (x : α) : List α → List α
  | [] => [x]
  | y :: ys => if key x < key y then x :: y :: ys else y :: insertByKey key x ys

/-- Stable sort by ascending rational key (insertion from the left). -/
def sortByKey {α : Type} (key : α → ℚ) (l : List α) : List α :=
  l.foldl (fun acc x => insertByKey key x acc) []

/-- Embedding of calculateNumericStats (bias-analyzer.ts lines 97-133).
The caller guarantees a nonempty list; the defaults in headD/getD are
never reached.  Math.floor(length * 0.25), 0.5 and 0.75 are the exact
natural-number divisions written below (those products are exact in
floating point for any realistic length).  stdDev is carried as its
square varianceVal; the outlier thresholds q1 - 1.5*iqr and q3 + 1.5*iqr
do not involve it. -/
def calculateNumericStats (values : List ℚ) : NumericStats :=
  let vs := sortByKey id values
  let n := vs.length
  let sum := vs.foldl (· + ·) 0
  let mean := sum / (n : ℚ)
  let variance := (vs.foldl (fun acc v => acc + (v - mean) ^ 2) 0) / (n : ℚ)
  let minV := vs.headD 0
  let maxV := vs.getLastD 0
  let median :=
    if n % 2 = 0 then ((vs.getD (n / 2 - 1) 0) + vs.getD (n / 2) 0) / 2
    else vs.getD (n / 2) 0
  let q1 := vs.getD (n / 4) 0
  let q3 := vs.getD (3 * n / 4) 0
  let iqr := q3 - q1
  let lo := q1 - 3 / 2 * iqr
  let hi := q3 + 3 / 2 * iqr
  let outs := vs.filter (fun v => v < lo ∨ v > hi)
  { min := minV, max := maxV, mean := mean, median := median,
    varianceVal := variance, q1 := q1, q3 := q3,
    outliers := outs.length,
    outliersPercent := ((outs.length : ℚ) / (n : ℚ)) * 100 }

/-- Option-valued traversal of a list: some list of results exactly when
the function succeeds on every element (the values.every numeric test of
bias-analyzer.ts line 91 combined with the conversion it guards). -/
def mapMo {α β : Type} (f : α → Option β) : List α → Option (List β)
  | [] => some []
  | x :: xs =>
      match f x, mapMo f xs with
      | some y, some ys => some (y :: ys)
      | _, _ => none

/-- The non-missing values of a column (bias-analyzer.ts lines 75-76):
the column values over all rows with null, undefined and the empty
string dropped. -/
def columnValues (data : List Row) (column : String) : List JsVal :=
  (data.map (fun row => rowGet row column)).filterMap
    (fun v => if isMissing v then none else v)

/-- Embedding of calculateDistribution (bias-analyzer.ts lines 69-94):
early return with count 0 when the data is empty, the first row lacks the
column, or every value of the column is missing; otherwise the frequency
map plus, when every value converts to a number, the numeric stats. -/
def calculateDistribution (data : List Row) (column : String) : ColumnStats :=
  if data = [] ∨ ¬ (data.headD []).any (fun p => p.1 = column) then
    { count := 0, uniqueValues := none, distribution := none, numeric := none }
  else if columnValues data column = [] then
    { count := 0, uniqueValues := none, distribution := none, numeric := none }
  else
    { count := (columnValues data column).length,
      uniqueValues := some (frequencies (columnValues data column)).length,
      distribution := some (frequencies (columnValues data column)),
      numeric := (mapMo jsToNumber (columnValues data column)).map calculateNumericStats }

/-- Result of the final division of calculateDisparateImpact, separating
the JavaScript special values: null for the early returns, nan for 0/0,
posInf for x/0 with x positive (unreachable, kept for faithfulness), and
val for a finite ratio. -/
inductive DIResult where
  | null
  | nan
  | posInf
  | val (q : ℚ)
deriving DecidableEq

/-- One group entry of the rates array of calculateDisparateImpact
(bias-analyzer.ts lines 181-185). -/
structure RateEntry where
  group : String
  rate : ℚ
  count : Nat
deriving DecidableEq

/-- The favorable-outcome test of calculateDisparateImpact
(bias-analyzer.ts lines 166-173): strict equality with 1, "1", true,
"true", "yes" or "approved". -/
def isFavorable : JsVal → Bool
  | .num q => q = 1
  | .str s => s = "1" || s = "true" || s = "yes" || s = "approved"
  | .bool b => b
  | .null => false

/-- Counter initialization of calculateDisparateImpact (lines 148-150):
assignment per attribute value under object-key coercion; a repeated key
keeps its first position, its counters reset to zero. -/
def initCounters (keys : List String) : List (String × Nat × Nat) :=
  keys.foldl
    (fun acc k =>
      if acc.any (fun p => p.1 = k) then
        acc.map (fun p => if p.1 = k then (k, 0, 0) else p)
      else acc ++ [(k, 0, 0)])
    []

/-- Per-row counting of calculateDisparateImpact (lines 153-178): rows
with a null/undefined attribute or outcome are skipped, otherwise the
group total is incremented and the positive counter when favorable.
Counters are stored as (key, positive, total). -/
def countOutcomes (data : List Row) (outcomeColumn protectedAttribute : String)
    (counters : List (String × Nat × Nat)) : List (String × Nat × Nat) :=
  data.foldl
    (fun acc row =>
      let av := rowGet row protectedAttribute
      let out := rowGet row outcomeColumn
      if isNullish av || isNullish out then acc
      else
        let fav := match out with
          | some o => isFavorable o
          | none => false
        acc.map (fun p =>
          if p.1 = jsOptKey av then
            (p.1, p.2.1 + (if fav then 1 else 0), p.2.2 + 1)
          else p))
    counters

/-- The distinct values of the protected attribute in first-appearance
order (bias-analyzer.ts line 141). -/
def diAttributeValues (data : List Row) (protectedAttribute : String) :
    List (Option JsVal) :=
  dedupFirst (data.map (fun row => rowGet row protectedAttribute))

/-- The rates array of calculateDisparateImpact (bias-analyzer.ts lines
145-185): initialize a counter pair per attribute value, count outcomes
per row, then map each group to its favorable rate (0 for an empty
group) and its population. -/
def diRates (data : List Row) (outcomeColumn protectedAttribute : String) :
    List RateEntry :=
  let counters := initCounters ((diAttributeValues data protectedAttribute).map jsOptKey)
  (countOutcomes data outcomeColumn protectedAttribute counters).map (fun p =>
    { group := p.1,
      rate := if 0 < p.2.2 then (p.2.1 : ℚ) / (p.2.2 : ℚ) else 0,
      count := p.2.2 })

/-- The rates array after the stable ascending sort by rate
(bias-analyzer.ts line 188). -/
def diSorted (data : List Row) (outcomeColumn protectedAttribute : String) :
    List RateEntry :=
  sortByKey (fun e => e.rate) (diRates data outcomeColumn protectedAttribute)

/-- rates[0] after sorting; the default stands for the out-of-bounds
access on an empty array and is never reached from the main function. -/
def diLowest (data : List Row) (outcomeColumn protectedAttribute : String) :
    RateEntry :=
  (diSorted data outcomeColumn protectedAttribute).headD
    { group := "", rate := 0, count := 0 }

/-- rates[rates.length - 1] after sorting. -/
def diHighest (data : List Row) (outcomeColumn protectedAttribute : String) :
    RateEntry :=
  (diSorted data outcomeColumn protectedAttribute).getLastD
    { group := "", rate := 0, count := 0 }

/-- Embedding of calculateDisparateImpact (bias-analyzer.ts lines
136-198).  The guards !data.length, !outcomeColumn, !protectedAttribute
(empty strings are falsy), the two-groups check on the Set of attribute
values, the zero-population check on the two sorted extremes, and the
final division rates[0].rate / rates[last].rate, whose JavaScript
special values 0/0 = NaN and x/0 = Infinity are the nan and posInf
constructors. -/
def calculateDisparateImpact (data : List Row)
    (outcomeColumn protectedAttribute : String) : DIResult :=
  if data = [] ∨ outcomeColumn = "" ∨ protectedAttribute = "" then .null
  else if (diAttributeValues data protectedAttribute).length < 2 then .null
  else if (diLowest data outcomeColumn protectedAttribute).count = 0 ∨
          (diHighest data outcomeColumn protectedAttribute).count = 0 then .null
  else if (diHighest data outcomeColumn protectedAttribute).rate = 0 then
    (if (diLowest data outcomeColumn protectedAttribute).rate = 0 then .nan
     else .posInf)
  else
    .val ((diLowest data outcomeColumn protectedAttribute).rate /
          (diHighest data outcomeColumn protectedAttribute).rate)

/-- The controlled vocabulary of findSensitiveAttributes
(bias-analyzer.ts lines 210-222). -/
def sensitiveVocab : List String :=
  ["gender", "sex", "race", "ethnic", "age", "nationality", "religion",
   "disability", "zip", "postal", "location"]

/-- ASCII lower-casing of a character, the fragment of the JavaScript
toLowerCase that the controlled vocabulary (all ASCII) can match. -/
def lowerCh : Char → Char
  | 'A' => 'a' | 'B' => 'b' | 'C' => 'c' | 'D' => 'd' | 'E' => 'e'
  | 'F' => 'f' | 'G' => 'g' | 'H' => 'h' | 'I' => 'i' | 'J' => 'j'
  | 'K' => 'k' | 'L' => 'l' | 'M' => 'm' | 'N' => 'n' | 'O' => 'o'
  | 'P' => 'p' | 'Q' => 'q' | 'R' => 'r' | 'S' => 's' | 'T' => 't'
  | 'U' => 'u' | 'V' => 'v' | 'W' => 'w' | 'X' => 'x' | 'Y' => 'y'
  | 'Z' => 'z' | c => c

/-- ASCII lower-casing of a string (JavaScript toLowerCase on the
characters relevant to the vocabulary test). -/
def lowerStr (s : String) : String := ⟨s.data.map lowerCh⟩

/-- Embedding of findSensitiveAttributes (bias-analyzer.ts lines
201-228): keys of the first row whose lower-cased name contains a
vocabulary substring. -/
def findSensitiveAttributes (data : List Row) : List String :=
  match data with
  | [] => []
  | firstRow :: _ =>
      (firstRow.map (fun p => p.1)).filter
        (fun k => sensitiveVocab.any (fun v => strContains (lowerStr k) v))

/-- Embedding of findMissingValues (bias-analyzer.ts lines 231-251):
per column of the first row, the number of rows whose value is
null/undefined/empty, kept only when positive. -/
def findMissingValues (data : List Row) : List (String × Nat) :=
  match data with
  | [] => []
  | firstRow :: _ =>
      (firstRow.map (fun p => p.1)).filterMap (fun column =>
        let missing := (data.filter (fun row => isMissing (rowGet row column))).length
        if 0 < missing then some (column, missing) else none)

/-- The claim-relevant fields of the analyzeBias result (bias-analyzer.ts
lines 254-455).  The fields driven by Math.random (featureImportance,
the scalar biasMetrics), the issue list and the recommended-action list
are not part of any claim and are omitted from the embedding.
skewedDistributions compares stdDev to mean; with stdDev carried as its
square, |stdDev/mean| > 2 is varianceVal > 4 * mean^2 together with the
truthiness of both fields. -/
structure BiasResultM where
  totalRecords : Nat
  sensitiveAttributes : List String
  distributionStats : List (String × ColumnStats)
  missingValues : List (String × Nat)
  skewedDistributions : List String
  disparateImpact : List (String × DIResult)
deriving DecidableEq

/-- Embedding of the main analyzeBias function (bias-analyzer.ts lines
254-455) on already-parsed rows; the CSV/JSON decoding and the
normalization of a single object into a one-element array happen before
this point and are modelled by the List Row input.  The processor calls
it without a target column, in which case no disparate impact entries are
computed (line 330).  A NaN or infinite impact is recorded like any other
non-null value (the line 333 test is only against null). -/
def analyzeBiasColumns (data : List Row) : List String :=
  (data.headD []).map (fun p => p.1)

/-- The per-column distribution loop of analyzeBias (bias-analyzer.ts
lines 302-308): exactly one entry per column of the first row. -/
def analyzeBiasDistributions (data : List Row) : List (String × ColumnStats) :=
  (analyzeBiasColumns data).map (fun c => (c, calculateDistribution data c))

/-- The skewed-distribution filter of analyzeBias (bias-analyzer.ts
lines 314-318): the truthiness tests on stdDev and mean, and the
comparison |stdDev/mean| > 2 squared to stay rational. -/
def analyzeBiasSkewed (data : List Row) : List String :=
  ((analyzeBiasDistributions data).filter (fun p =>
    match p.2.numeric with
    | some st => st.varianceVal ≠ 0 && st.mean ≠ 0 && st.varianceVal > 4 * st.mean ^ 2
    | none => false)).map (fun p => p.1)

/-- The disparate-impact loop of analyzeBias (bias-analyzer.ts lines
329-337): only with a target column, one entry per sensitive attribute
whose impact is not null (NaN and infinite impacts pass the !== null
test and are recorded). -/
def analyzeBiasImpacts (data : List Row) (targetColumn : Option String) :
    List (String × DIResult) :=
  match targetColumn with
  | none => []
  | some tc =>
      (findSensitiveAttributes data).filterMap (fun attr =>
        match calculateDisparateImpact data tc attr with
        | .null => none
        | r => some (attr, r))

/-- Embedding of the main analyzeBias function, continued: the empty
check and the assembled result. -/
def analyzeBias (data : List Row) (targetColumn : Option String) :
    Except String BiasResultM :=
  if data = [] then .error "Input data is empty"
  else
    .ok { totalRecords := data.length,
          sensitiveAttributes := findSensitiveAttributes data,
          distributionStats := analyzeBiasDistributions data,
          missingValues := findMissingValues data,
          skewedDistributions := analyzeBiasSkewed data,
          disparateImpact := analyzeBiasImpacts data targetColumn }

/-- Word character of the JavaScript regex word-boundary assertion:
A-Z, a-z, 0-9 or underscore. -/
def isWordCh (c : Char) : Bool :=
  ('A' ≤ c && c ≤ 'Z') || ('a' ≤ c && c ≤ 'z') || ('0' ≤ c && c ≤ '9') || c = '_'

/-- Character class of the local part of the EMAIL pattern of
pii-detector.ts line 42. -/
def emailLocalCh (c : Char) : Bool :=
  ('A' ≤ c && c ≤ 'Z') || ('a' ≤ c && c ≤ 'z') || ('0' ≤ c && c ≤ '9') ||
  c = '.' || c = '_' || c = '%' || c = '+' || c = '-'

/-- Character class of the domain part of the EMAIL pattern. -/
def emailDomainCh (c : Char) : Bool :=
  ('A' ≤ c && c ≤ 'Z') || ('a' ≤ c && c ≤ 'z') || ('0' ≤ c && c ≤ '9') ||
  c = '.' || c = '-'

/-- Character class of the top-level-domain part of the EMAIL pattern,
written [A-Z|a-z] in the source: letters and a literal bar. -/
def emailTldCh (c : Char) : Bool :=
  ('A' ≤ c && c ≤ 'Z') || ('a' ≤ c && c ≤ 'z') || c = '|'

/-- Whether the character at index i is a word character (out of range
counts as non-word). -/
def wordAt (cs : List Char) (i : Nat) : Bool :=
  match cs.get? i with
  | some c => isWordCh c
  | none => false

/-- The word-boundary assertion of the regex at position i (between
characters i-1 and i): exactly one side is a word character; the string
edges count as non-word. -/
def boundaryAt (cs : List Char) (i : Nat) : Bool :=
  (if 0 < i then wordAt cs (i - 1) else false) != wordAt cs i

/-- Length of the maximal run of characters satisfying p starting at
index i (the greedy first try of a one-or-more class repetition). -/
def runLen (p : Char → Bool) (cs : List Char) (i : Nat) : Nat :=
  ((cs.drop i).takeWhile p).length

/-- Backtracking search for the tail of the EMAIL pattern from index j:
a greedy run of at least two TLD characters followed by a word boundary,
trying the longest run first.  The fuel argument is the candidate run
length, descending. -/
def tldEndSearch (cs : List Char) (j : Nat) : Nat → Option Nat
  | 0 => none
  | 1 => none
  | m + 2 =>
      if boundaryAt cs (j + m + 2) then some (j + m + 2)
      else tldEndSearch cs j (m + 1)

/-- Match of the suffix (dot, then two-or-more TLD characters, then a
word boundary) starting exactly at index j, greedy on the run length. -/
def matchTldFrom (cs : List Char) (j : Nat) : Option Nat :=
  tldEndSearch cs j (runLen emailTldCh cs j)

/-- Backtracking over the length of the one-or-more domain-character run
starting at i2, longest candidate first: the character after the run must
be a literal dot, then the TLD suffix must match.  The candidate length
argument descends from the maximal run length; every shorter candidate
still lies inside the maximal run. -/
def domainSearch (cs : List Char) (i2 : Nat) : Nat → Option Nat
  | 0 => none
  | k + 1 =>
      if cs.get? (i2 + k + 1) = some '.' then
        match matchTldFrom cs (i2 + k + 2) with
        | some e => some e
        | none => domainSearch cs i2 k
      else domainSearch cs i2 k

/-- Leftmost-longest match of the EMAIL regex of pii-detector.ts line 42
anchored at index i: a word boundary, one or more local characters, an
at sign, one or more domain characters, a dot, at least two TLD
characters and a closing word boundary.  Since the at sign is not a
local character the greedy local run needs no backtracking; the domain
run backtracks through domainSearch.  Returns the end index. -/
def matchEmailAt (cs : List Char) (i : Nat) : Option Nat :=
  if boundaryAt cs i then
    let r1 := runLen emailLocalCh cs i
    if r1 = 0 then none
    else if cs.get? (i + r1) = some '@' then
      domainSearch cs (i + r1 + 1) (runLen emailDomainCh cs (i + r1 + 1))
    else none
  else none

/-- The matchAll loop of detectPii for the EMAIL pattern: scan for the
leftmost match at or after i, record it, continue at its end.  Fuel is
an upper bound on the scan position and makes the recursion structural;
it is initialized beyond the text length. -/
def scanEmails (cs : List Char) : Nat → Nat → List (Nat × Nat)
  | 0, _ => []
  | fuel + 1, i =>
      if cs.length ≤ i then []
      else
        match matchEmailAt cs i with
        | some e => (i, e) :: scanEmails cs fuel (max e (i + 1))
        | none => scanEmails cs fuel (i + 1)

/-- All EMAIL matches of a text, as (start, end) index pairs in match
order. -/
def emailMatches (text : String) : List (Nat × Nat) :=
  scanEmails text.data (text.data.length + 1) 0

/-- JavaScript String.prototype.slice with nonnegative clamped indices. -/
def jsSlice (cs : List Char) (a b : Nat) : List Char :=
  (cs.take b).drop a

/-- Embedding of getContext (pii-detector.ts lines 104-127): up to
contextSize characters around the match, a three-dot ellipsis prepended
or appended at a truncated side, and the match replaced by asterisks at
offset piiContextStart — an offset computed in the unprefixed slice and
applied after the ellipsis was prepended. -/
def getContext (text : String) (startIndex endIndex : Nat)
    (contextSize : Nat := 30) : String :=
  let cs := text.data
  let contextStart := startIndex - contextSize
  let contextEnd := Nat.min cs.length (endIndex + contextSize)
  let context0 := (cs.take contextEnd).drop contextStart
  let context1 :=
    if 0 < contextStart then '.' :: '.' :: '.' :: context0 else context0
  let context2 :=
    if contextEnd < cs.length then context1 ++ ['.', '.', '.'] else context1
  let piiLength := endIndex - startIndex
  let asterisks := List.replicate piiLength '*'
  let piiContextStart := startIndex - contextStart
  ⟨(context2.take piiContextStart) ++ asterisks ++
    (context2.drop (piiContextStart + piiLength))⟩

/-- An extracted document as consumed by detectPii. -/
structure ExtractedDocumentM where
  text : String
  filename : String
  path : String
deriving DecidableEq

/-- An EMAIL finding of detectPii (pii-detector.ts lines 145-156):
matched value, the fixed confidence weight of the pattern, document
identity, offset range and redacted context. -/
structure PiiFindingM where
  value : String
  confidence : ℚ
  filename : String
  path : String
  startIndex : Nat
  endIndex : Nat
  context : String
deriving DecidableEq

/-- The findings of type EMAIL produced by detectPii on one document
(pii-detector.ts lines 132-162): detectPii iterates every pattern of
PII_PATTERNS, and its findings of type EMAIL are exactly the matches of
the EMAIL pattern, each with the fixed confidence 0.9 and the redacted
context.  The claims below quantify over EMAIL findings only, so only
that detector is embedded. -/
def detectPiiEmail (doc : ExtractedDocumentM) : List PiiFindingM :=
  (emailMatches doc.text).map (fun m =>
    { value := ⟨jsSlice doc.text.data m.1 m.2⟩,
      confidence := 9 / 10,
      filename := doc.filename,
      path := doc.path,
      startIndex := m.1,
      endIndex := m.2,
      context := getContext doc.text m.1 m.2 })

/-- Per-job queue configuration (queue.ts defaultJobOptions, lines
30-38): attempt limit and exponential backoff base delay in
milliseconds. -/
structure JobOptions where
  attempts : Nat
  backoffDelayMs : Nat
deriving DecidableEq

/-- The defaultJobOptions of the analysis queue (queue.ts lines 30-38):
3 attempts, exponential backoff starting at 5000 ms. -/
def defaultJobOptions : JobOptions :=
  { attempts := 3, backoffDelayMs := 5000 }

/-- Modelled from the spec: the retry engine driving these options lives
in the Bull library, not under src/; the spec fixes its behavior as
retries with exponential backoff up to the configured attempt limit.
The delay scheduled before the k-th retry (k counted from 1) of an
exponential-backoff job is base * 2 ^ (k - 1). -/
def backoffDelay (o : JobOptions) (retryIndex : Nat) : Nat :=
  o.backoffDelayMs * 2 ^ (retryIndex - 1)

/-- Modelled from the spec: the per-job delivery state kept by the queue
(attempts made so far, and whether the job is waiting for a retry, has
been permanently failed after exhausting attempts, or completed). -/
inductive JobPhase where
  | delayedRetry (attemptsMade : Nat) (delayMs : Nat)
  | permanentlyFailed (attemptsMade : Nat)
  | completedJob (attemptsMade : Nat)
deriving DecidableEq

/-- Modelled from the spec: the queue's reaction to a handler exception
on the (attemptsMade+1)-th attempt — re-queue with the exponential
backoff delay while attempts remain, permanently fail after the limit. -/
def failAttempt (o : JobOptions) (attemptsMade : Nat) : JobPhase :=
  if attemptsMade + 1 < o.attempts then
    .delayedRetry (attemptsMade + 1) (backoffDelay o (attemptsMade + 1))
  else .permanentlyFailed (attemptsMade + 1)

/-- Modelled from the spec: the phase after each successive attempt of a
job whose handler fails every time, in attempt order. -/
def allFailingRun (o : JobOptions) : List JobPhase :=
  (List.range o.attempts).map (fun k => failAttempt o k)

/-- The lifecycle states an Analysis record passes through
(storage.ts createAnalysis default plus the updateAnalysisStatus call
sites of analysis-processor.ts). -/
inductive AnalysisStatus where
  | pending
  | queued
  | processing
  | completed
  | failed
deriving DecidableEq

/-- An analyses row, restricted to the claim-relevant columns of
shared/schema.ts (id, tenant_id, status, results_path). -/
structure AnalysisRow where
  id : Nat
  tenantId : Nat
  status : AnalysisStatus
  resultsPath : Option String
deriving DecidableEq

/-- A datasets row, restricted to what queueAnalysisJob reads. -/
structure DatasetRow where
  id : Nat
  tenantId : Nat
  s3Bucket : Option String
  s3Key : Option String
deriving DecidableEq

/-- An activities row as written by storage.logActivity. -/
structure ActivityRow where
  action : String
  description : String
  entityId : Nat
  tenantId : Nat
  userId : Nat
deriving DecidableEq

/-- The shared relational store: analyses, datasets and the activity
log, each a bag of rows shared by all tenants. -/
structure Store where
  analyses : List AnalysisRow
  datasets : List DatasetRow
  activities : List ActivityRow
deriving DecidableEq

/-- Embedding of DatabaseStorage.updateAnalysisStatus (storage.ts lines
255-277).  The drizzle update filters by eq(analyses.id, id) only —
there is no tenant condition — and writes resultsPath only when the new
status is completed; for failed only completedAt is set, so a path (or
error summary) passed with a failed status is discarded. -/
def updateAnalysisStatus (st : Store) (id : Nat) (status : AnalysisStatus)
    (resultsPath : Option String) : Store :=
  { st with analyses := st.analyses.map (fun r =>
      if r.id = id then
        { r with status := status,
                 resultsPath :=
                   if status = .completed then resultsPath else r.resultsPath }
      else r) }

/-- Embedding of DatabaseStorage.getAnalysis (storage.ts lines 226-239):
first row matching both id and tenant id. -/
def getAnalysis (st : Store) (id tenantId : Nat) : Option AnalysisRow :=
  st.analyses.find? (fun r => r.id = id && r.tenantId = tenantId)

/-- Embedding of DatabaseStorage.getDataset (storage.ts lines 122-133):
first row matching both id and tenant id. -/
def getDataset (st : Store) (id tenantId : Nat) : Option DatasetRow :=
  st.datasets.find? (fun r => r.id = id && r.tenantId = tenantId)

/-- Embedding of DatabaseStorage.createAnalysis (storage.ts lines
216-224): inserts a row with initial status pending and no results
path; id is the serial the database assigns, passed explicitly. -/
def createAnalysis (st : Store) (id tenantId : Nat) : Store :=
  { st with analyses := st.analyses ++
      [{ id := id, tenantId := tenantId, status := .pending, resultsPath := none }] }

/-- Embedding of DatabaseStorage.logActivity (storage.ts lines 280-290):
appends the activity row.  (The 200-character truncation of the logged
description only affects the console log line, not the inserted row.) -/
def logActivity (st : Store) (a : ActivityRow) : Store :=
  { st with activities := st.activities ++ [a] }

/-- The S3 key interpolated by saveResultsToS3 (analysis-processor.ts
line 43); the Date.now() wall-clock milliseconds are passed explicitly. -/
def resultsKey (tenantId analysisId now : Nat) : String :=
  "tenant_" ++ decString tenantId ++ "/results/analysis_" ++
    decString analysisId ++ "_" ++ decString now ++ ".json"

/-- Embedding of saveResultsToS3 (analysis-processor.ts lines 37-63):
none when no results bucket is configured (a failed put, which the
function catches and also turns into null, is modelled by passing none);
otherwise the s3:// locator of the stored JSON document. -/
def saveResultsToS3 (resultsBucket : Option String)
    (analysisId tenantId now : Nat) : Option String :=
  resultsBucket.map (fun b => "s3://" ++ b ++ "/" ++ resultsKey tenantId analysisId now)

/-- The job payload fields the handler reads (queue.ts AnalysisJobData);
sourceId stands for datasetId or webhookDataId as used in the activity
descriptions. -/
structure AnalysisJobData where
  analysisId : Nat
  tenantId : Nat
  analysisType : String
  initiatedById : Nat
  source : String
  sourceId : Nat
deriving DecidableEq

/-- Step 3 of the handler (analysis-processor.ts lines 138-160): run the
analyzer selected by analysisType.  bias_analysis runs analyzeBias with
no target column (line 144 passes only data and file type);
pii_detection returns a skipped-status object without error (lines
145-157); any other type throws. -/
inductive AnalyzerResult where
  | bias (r : BiasResultM)
  | piiSkipped
deriving DecidableEq

/-- Analyzer dispatch of the handler (analysis-processor.ts lines
142-160). -/
def runAnalyzer (analysisType : String) (rows : List Row) :
    Except String AnalyzerResult :=
  if analysisType = "bias_analysis" then (analyzeBias rows none).map .bias
  else if analysisType = "pii_detection" then .ok .piiSkipped
  else .error ("Unsupported analysis type: " ++ analysisType)

/-- Rendering of the dataset/webhook id in the activity descriptions
(the JavaScript interpolation datasetId || webhookDataId). -/
def sourceIdStr (j : AnalysisJobData) : String := decString j.sourceId

/-- The failure activity written in the catch block of the handler
(analysis-processor.ts lines 197-204). -/
def failActivity (j : AnalysisJobData) (msg : String) : ActivityRow :=
  { action := "analysis_failed",
    description := "Failed " ++ j.analysisType ++ " for " ++ j.source ++
      " ID " ++ sourceIdStr j ++ ": " ++ msg,
    entityId := j.analysisId,
    tenantId := j.tenantId,
    userId := j.initiatedById }

/-- The completion activity (analysis-processor.ts lines 176-183). -/
def completedActivity (j : AnalysisJobData) (loc : Option String) : ActivityRow :=
  { action := "analysis_completed",
    description := "Completed " ++ j.analysisType ++ " for " ++ j.source ++
      " ID " ++ sourceIdStr j ++ ". Results: " ++ loc.getD "Not stored in S3",
    entityId := j.analysisId,
    tenantId := j.tenantId,
    userId := j.initiatedById }

/-- What the handler returned to the queue: the early-return skip for a
terminal record on a first delivery, normal completion, or a rethrown
error (which the queue counts as a failed attempt and retries). -/
inductive HandlerOutcome where
  | skipped
  | completedOk (resultsLocation : Option String)
  | thrown (message : String)
deriving DecidableEq

/-- Result of one delivery: the store afterwards, the statuses passed to
updateAnalysisStatus for this analysis id in call order, and the
handler outcome. -/
structure DeliveryResult where
  store : Store
  statusSets : List AnalysisStatus
  outcome : HandlerOutcome
deriving DecidableEq

/-- Embedding of the job handler registered by initAnalysisProcessor
(analysis-processor.ts lines 72-212).  Step 2 — dataset lookup, S3
fetch, CSV/JSON decoding or webhook payload fetch — is I/O and enters as
its Except-valued outcome ingest; resultsBucket and now parameterize
saveResultsToS3.  Control flow: fetch the record (not-found throws into
the catch block, which marks the analysis failed and logs before
rethrowing); skip when the record is already completed or failed AND
attemptsMade is 0 (line 89); otherwise set processing, run ingestion and
the analyzer, then either save results, set completed and log, or in the
catch set failed (the error summary argument is discarded by
updateAnalysisStatus), log and rethrow. -/
def processAnalysisJob (st : Store) (j : AnalysisJobData) (attemptsMade : Nat)
    (ingest : Except String (List Row)) (resultsBucket : Option String)
    (now : Nat) : DeliveryResult :=
  match getAnalysis st j.analysisId j.tenantId with
  | none =>
      let msg := "Analysis record " ++ decString j.analysisId ++
        " not found for tenant " ++ decString j.tenantId ++ "."
      let st1 := updateAnalysisStatus st j.analysisId .failed (some ("Error: " ++ msg))
      let st2 := logActivity st1 (failActivity j msg)
      { store := st2, statusSets := [.failed], outcome := .thrown msg }
  | some rec =>
      if (rec.status = .completed ∨ rec.status = .failed) ∧ attemptsMade = 0 then
        { store := st, statusSets := [], outcome := .skipped }
      else
        let st1 := updateAnalysisStatus st j.analysisId .processing none
        let run : Except String AnalyzerResult :=
          match ingest with
          | .error e => .error e
          | .ok rows => runAnalyzer j.analysisType rows
        match run with
        | .error e =>
            let st2 := updateAnalysisStatus st1 j.analysisId .failed (some ("Error: " ++ e))
            let st3 := logActivity st2 (failActivity j e)
            { store := st3, statusSets := [.processing, .failed], outcome := .thrown e }
        | .ok _results =>
            let loc := saveResultsToS3 resultsBucket j.analysisId j.tenantId now
            let st2 := updateAnalysisStatus st1 j.analysisId .completed loc
            let st3 := logActivity st2 (completedActivity j loc)
            { store := st3, statusSets := [.processing, .completed],
              outcome := .completedOk loc }

deriving instance DecidableEq for Except

/-- Result of queueAnalysisJob: the store, the statuses set for the new
analysis in order (createAnalysis counts as pending), and the returned
analysis id or the rethrown error. -/
structure QueueJobResult where
  store : Store
  statusSets : List AnalysisStatus
  outcome : Except String Nat
deriving DecidableEq

/-- Embedding of queueAnalysisJob (analysis-processor.ts lines 218-301).
The analysis row is created first with status pending (line 240, id
assigned by the database, passed as newId).  Then, inside the try block:
an upload source requires its dataset to exist for the tenant with S3
info (lines 253-259); a webhook source requires webhookDataId (lines
260-262); the job is added to the queue (line 272, Redis I/O, its
success passed as enqueueOk); only then is the status set to queued and
the queued activity logged.  Any failure lands in the catch block (lines
291-300), which sets the status to failed — directly from pending —
and rethrows. -/
def queueAnalysisJob (st : Store) (source : String)
    (datasetId webhookDataId : Option Nat) (analysisType : String)
    (tenantId initiatedById : Nat) (newId : Nat) (enqueueOk : Bool) :
    QueueJobResult :=
  let st0 := createAnalysis st newId tenantId
  let sourceCheck : Except String Unit :=
    if source = "upload" then
      match datasetId with
      | some d =>
          match getDataset st0 d tenantId with
          | some ds =>
              if ds.s3Bucket.isSome && ds.s3Key.isSome then .ok ()
              else .error ("Cannot queue analysis: Dataset " ++ decString d ++
                " not found or missing S3 info.")
          | none => .error ("Cannot queue analysis: Dataset " ++ decString d ++
              " not found or missing S3 info.")
      | none => .ok ()
    else if source = "webhook" && webhookDataId.isNone then
      .error "Webhook source requires webhookDataId."
    else .ok ()
  let failQueue : String → QueueJobResult := fun e =>
    let st1 := updateAnalysisStatus st0 newId .failed (some ("Failed to queue: " ++ e))
    { store := st1, statusSets := [.pending, .failed], outcome := .error e }
  match sourceCheck with
  | .error e => failQueue e
  | .ok _ =>
      if enqueueOk then
        let st1 := updateAnalysisStatus st0 newId .queued none
        let st2 := logActivity st1
          { action := "analysis_queued",
            description := "Queued " ++ analysisType ++ " on " ++ source ++
              " ID " ++ decString ((datasetId.orElse (fun _ => webhookDataId)).getD 0),
            entityId := newId,
            tenantId := tenantId,
            userId := initiatedById }
        { store := st2, statusSets := [.pending, .queued], outcome := .ok newId }
      else failQueue "Error adding job to queue."

/-!
The rational operations of Batteries are irreducible by default, which
blocks kernel evaluation of the embedded arithmetic in the concrete-input
theorems below; they are restored to their definitional behavior here.
-/
set_option allowUnsafeReducibility true

attribute [local semireducible] Rat.mul Rat.inv Rat.add Rat.sub

/-- C10: under the default job configuration of queue.ts (3 attempts,
exponential backoff, 5000 ms base delay), a handler failing on every
attempt leads to delayed retries after attempts 1 and 2 (5000 ms then
10000 ms, nondecreasing) and to the permanently-failed state exactly at
attempt 3 and never earlier; moreover every successive exponential
backoff delay is at least the previous one. -/
theorem defaultQueue_failsAfterExactlyThreeAttempts :
    allFailingRun defaultJobOptions =
      [.delayedRetry 1 5000, .delayedRetry 2 10000, .permanentlyFailed 3] ∧
    (∀ k : Nat,
      backoffDelay defaultJobOptions (k + 1) ≤ backoffDelay defaultJobOptions (k + 2)) := by
  refine ⟨by decide, fun k => ?_⟩
  simp only [backoffDelay, defaultJobOptions, Nat.add_sub_cancel]
  exact Nat.mul_le_mul_left _ (Nat.pow_le_pow_right (by norm_num) (by omega))

/-- C5 counterexample: the S3 key of saveResultsToS3 interpolates
Date.now(), so two result writes for the same analysis (id 7, tenant 1)
performed at wall-clock times 1000 and 2000 address different locators:
the locator is not determined by the analysis id alone, and the later
write creates a second artifact instead of overwriting the first. -/
theorem resultsKey_differs_across_writes :
    saveResultsToS3 (some "results-bucket") 7 1 1000 ≠
      saveResultsToS3 (some "results-bucket") 7 1 2000 := by decide

/-- C5 amended: the result locator is determined by the tenant id, the
analysis id and the wall-clock millisecond of the write (the key is
tenant_T/results/analysis_A_NOW.json): for a fixed analysis, locators of
writes at different times differ, so a re-write only overwrites when it
happens in the same millisecond. -/
theorem resultsKey_determines_writeTime (t a n m : Nat)
    (h : resultsKey t a n = resultsKey t a m) : n = m := by
  apply decString_injective
  apply String.ext
  unfold resultsKey at h
  have hd := congrArg String.data h
  simp only [String.data_append] at hd
  have h1 := List.append_cancel_right hd
  exact List.append_cancel_left h1

/-- Witness for resultsKey_determines_writeTime at a concrete input. -/
theorem resultsKey_determines_writeTime_witness :
    resultsKey 1 7 1000 = resultsKey 1 7 1000 ∧ (1000 : Nat) = 1000 :=
  ⟨rfl, resultsKey_determines_writeTime 1 7 1000 1000 rfl⟩

/-- C2: evaluation at the failing input.  Analysis 7 belongs to tenant 2
and is completed; a job delivery carrying tenantId 1 for analysis 7
misses in the tenant-filtered getAnalysis (third conjunct), throws, and
the catch block's updateAnalysisStatus — which filters by id only, with
no tenant condition — marks tenant 2's completed analysis failed: a
write without a tenant-id filter mutates another tenant's record. -/
theorem updateAnalysisStatus_crossTenantWrite :
    (processAnalysisJob
      { analyses := [{ id := 7, tenantId := 2, status := .completed,
                       resultsPath := some "s3://rb/tenant_2/results/analysis_7_50.json" }],
        datasets := [], activities := [] }
      { analysisId := 7, tenantId := 1, analysisType := "bias_analysis",
        initiatedById := 4, source := "upload", sourceId := 3 }
      0 (.error "unreached") none 0).store.analyses =
      [{ id := 7, tenantId := 2, status := .failed,
         resultsPath := some "s3://rb/tenant_2/results/analysis_7_50.json" }] ∧
    updateAnalysisStatus
      { analyses := [{ id := 7, tenantId := 2, status := .completed,
                       resultsPath := some "p" }],
        datasets := [], activities := [] } 7 .failed none =
      { analyses := [{ id := 7, tenantId := 2, status := .failed,
                       resultsPath := some "p" }],
        datasets := [], activities := [] } ∧
    getAnalysis
      { analyses := [{ id := 7, tenantId := 2, status := .completed,
                       resultsPath := some "p" }],
        datasets := [], activities := [] } 7 1 = none := by
  refine ⟨by decide, by decide, by decide⟩

/-- C7: evaluation at the failing input.  The text places the match
jane.doe@example.com at offsets 40-60 (first conjunct: it is the one
EMAIL match), so the context window is truncated on the left and the
three-character ellipsis is prepended; piiContextStart is computed in
the unprefixed slice, so the asterisks land three characters early: the
last three characters of the matched value (com) survive in the snippet
and three legitimate context characters (to ) are destroyed, instead of
the fully redacted snippet of the last conjunct. -/
theorem getContext_leaks_match_tail :
    emailMatches "Send the quarterly compliance report to jane.doe@example.com today"
      = [(40, 60)] ∧
    ⟨jsSlice "Send the quarterly compliance report to jane.doe@example.com today".data 40 60⟩
      = "jane.doe@example.com" ∧
    getContext "Send the quarterly compliance report to jane.doe@example.com today" 40 60
      = "...uarterly compliance report ********************com today" ∧
    getContext "Send the quarterly compliance report to jane.doe@example.com today" 40 60
      ≠ "...uarterly compliance report to ******************** today" := by
  refine ⟨by decide, by decide, by decide, by decide⟩

/-- C9 counterexample: this document text contains jane.doe@example.com
exactly once, yet detectPii produces two findings of type EMAIL, because
the surrounding text contains a second email-shaped match (a@b.co): the
claimed consequence "exactly one EMAIL finding" does not follow from
"contains the address exactly once". -/
theorem email_two_findings :
    occurrenceCount "a@b.co jane.doe@example.com" "jane.doe@example.com" = 1 ∧
    (detectPiiEmail { text := "a@b.co jane.doe@example.com",
                      filename := "f.txt", path := "/f.txt" }).length = 2 := by
  refine ⟨by decide, by decide⟩

/-- C9 amended: a document containing jane.doe@example.com exactly once
yields exactly one EMAIL finding with that matched value only when the
occurrence is the text's only email-shaped match; for the concrete
document below that is the case, and the single EMAIL finding carries
the matched address and the fixed confidence 0.9 which is at least
0.85. -/
theorem email_single_finding_plain_document :
    occurrenceCount "Contact: jane.doe@example.com for info" "jane.doe@example.com" = 1 ∧
    (detectPiiEmail { text := "Contact: jane.doe@example.com for info",
                      filename := "contact.txt", path := "/contact.txt" }).map
        (fun f => (f.value, f.confidence))
      = [("jane.doe@example.com", 9 / 10)] ∧
    (85 / 100 : ℚ) ≤ 9 / 10 := by
  refine ⟨by decide, by decide, by decide⟩

/-- Store for the C1 scenario: analysis 7 of tenant 1 is completed with a
stored result locator. -/
def storeCompleted7 : Store :=
  { analyses := [{ id := 7, tenantId := 1, status := .completed,
                   resultsPath := some "s3://rb/tenant_1/results/analysis_7_50.json" }],
    datasets := [], activities := [] }

/-- Job payload bound to analysis 7 of tenant 1. -/
def jobFor7 : AnalysisJobData :=
  { analysisId := 7, tenantId := 1, analysisType := "bias_analysis",
    initiatedById := 4, source := "upload", sourceId := 3 }

/-- C1 counterexample: a delivery for completed analysis 7 with
attemptsMade = 1 is not a no-op — the guard of analysis-processor.ts
line 89 requires attemptsMade === 0 — so the handler reprocesses the
terminal analysis, sets processing and, when the rerun fails, overwrites
the status to failed: a stale redelivery with a positive attempt count
downgraded a completed Analysis, contradicting the claim's "regardless
of the delivery's attempt count". -/
theorem completedAnalysis_redelivery_downgraded :
    (processAnalysisJob storeCompleted7 jobFor7 1 (.error "S3 fetch failed") none 0).store.analyses
      = [{ id := 7, tenantId := 1, status := .failed,
           resultsPath := some "s3://rb/tenant_1/results/analysis_7_50.json" }] ∧
    (processAnalysisJob storeCompleted7 jobFor7 1 (.error "S3 fetch failed") none 0).statusSets
      = [.processing, .failed] := by
  refine ⟨by decide, by decide⟩

/-- C1 amended: the terminal no-op guard covers exactly the deliveries
with attemptsMade = 0: such a delivery for an Analysis already completed
or failed returns the skip result and leaves the store — hence the
record's status and result locator — unchanged; a redelivery with a
positive attempt count reprocesses even a terminal analysis. -/
theorem terminalGuard_firstDelivery (st : Store) (j : AnalysisJobData)
    (rec : AnalysisRow) (ingest : Except String (List Row))
    (resultsBucket : Option String) (now : Nat)
    (hfind : getAnalysis st j.analysisId j.tenantId = some rec)
    (hterm : rec.status = .completed ∨ rec.status = .failed) :
    processAnalysisJob st j 0 ingest resultsBucket now =
      { store := st, statusSets := [], outcome := .skipped } := by
  unfold processAnalysisJob
  rw [hfind]
  dsimp only
  rw [if_pos ⟨hterm, rfl⟩]

/-- Witness for terminalGuard_firstDelivery: the concrete completed
analysis 7 with a first delivery. -/
theorem terminalGuard_firstDelivery_witness :
    getAnalysis storeCompleted7 7 1 =
      some { id := 7, tenantId := 1, status := .completed,
             resultsPath := some "s3://rb/tenant_1/results/analysis_7_50.json" } ∧
    processAnalysisJob storeCompleted7 jobFor7 0 (.error "S3 fetch failed") none 0 =
      { store := storeCompleted7, statusSets := [], outcome := .skipped } :=
  ⟨by decide,
   terminalGuard_firstDelivery storeCompleted7 jobFor7
     { id := 7, tenantId := 1, status := .completed,
       resultsPath := some "s3://rb/tenant_1/results/analysis_7_50.json" }
     (.error "S3 fetch failed") none 0 (by decide) (Or.inl rfl)⟩

/-- One step of the status discipline asserted by claim C3: queued
follows pending, processing follows queued, completed and failed follow
processing. -/
def stepAllowed : AnalysisStatus → AnalysisStatus → Bool
  | .pending, .queued => true
  | .queued, .processing => true
  | .processing, .completed => true
  | .processing, .failed => true
  | _, _ => false

/-- Every adjacent pair of a status history satisfies stepAllowed. -/
def chainAllowed : List AnalysisStatus → Bool
  | [] => true
  | [_] => true
  | a :: b :: rest => stepAllowed a b && chainAllowed (b :: rest)

/-- Claim C3's no-skipping property of a status history: it starts at
pending and each transition is pending to queued, queued to processing,
or processing to a terminal state. -/
def specOrdered (l : List AnalysisStatus) : Bool :=
  (match l with
   | [] => true
   | s :: _ => s == .pending) && chainAllowed l

/-- C3 counterexample: queueAnalysisJob for an upload whose dataset does
not exist creates the analysis with status pending and then its catch
block (analysis-processor.ts line 295) sets failed directly — the
record's status history is [pending, failed]: failed is reached from
pending without ever being queued or processing. -/
theorem queueFailure_skipsToFailed :
    (queueAnalysisJob { analyses := [], datasets := [], activities := [] }
      "upload" (some 5) none "bias_analysis" 1 4 9 true).statusSets
      = [.pending, .failed] ∧
    (queueAnalysisJob { analyses := [], datasets := [], activities := [] }
      "upload" (some 5) none "bias_analysis" 1 4 9 true).store.analyses
      = [{ id := 9, tenantId := 1, status := .failed, resultsPath := none }] ∧
    specOrdered [.pending, .failed] = false := by
  refine ⟨by decide, by decide, by decide⟩

/-- C3 amended: completed is only ever set immediately after the same
delivery's processing update — a delivery that finds its record sets
statuses [], [processing, completed] or [processing, failed] — and a
successful queueAnalysisJob sets [pending, queued], so the nominal
lifecycle follows the claimed order (third conjunct); but a failed
queueAnalysisJob sets [pending, failed], reaching failed directly from
pending without passing processing. -/
theorem statusUpdate_shapes :
    (∀ (st : Store) (j : AnalysisJobData) (att : Nat)
       (ingest : Except String (List Row)) (rb : Option String) (now : Nat)
       (rec : AnalysisRow),
      getAnalysis st j.analysisId j.tenantId = some rec →
      (processAnalysisJob st j att ingest rb now).statusSets = [] ∨
      (processAnalysisJob st j att ingest rb now).statusSets = [.processing, .completed] ∨
      (processAnalysisJob st j att ingest rb now).statusSets = [.processing, .failed]) ∧
    (∀ (st : Store) (source : String) (dsId whId : Option Nat)
       (atype : String) (tid iid nid : Nat) (eok : Bool),
      (queueAnalysisJob st source dsId whId atype tid iid nid eok).statusSets
        = [.pending, .queued] ∨
      (queueAnalysisJob st source dsId whId atype tid iid nid eok).statusSets
        = [.pending, .failed]) ∧
    specOrdered ([.pending, .queued] ++ [.processing, .completed]) = true := by
  refine ⟨?_, ?_, by decide⟩
  · intro st j att ingest rb now rec hfind
    unfold processAnalysisJob
    rw [hfind]
    dsimp only
    split
    · exact Or.inl rfl
    · split
      · exact Or.inr (Or.inr rfl)
      · exact Or.inr (Or.inl rfl)
  · intro st source dsId whId atype tid iid nid eok
    unfold queueAnalysisJob
    dsimp only
    split
    · exact Or.inr rfl
    · split
      · exact Or.inl rfl
      · exact Or.inr rfl

/-- Witness for statusUpdate_shapes: a queued analysis delivered once,
and a concrete queueAnalysisJob call. -/
theorem statusUpdate_shapes_witness :
    ((processAnalysisJob
        { analyses := [{ id := 9, tenantId := 1, status := .queued, resultsPath := none }],
          datasets := [], activities := [] }
        { analysisId := 9, tenantId := 1, analysisType := "bias_analysis",
          initiatedById := 4, source := "upload", sourceId := 5 }
        0 (.ok [[("a", JsVal.num 1)]]) none 0).statusSets = [] ∨
     (processAnalysisJob
        { analyses := [{ id := 9, tenantId := 1, status := .queued, resultsPath := none }],
          datasets := [], activities := [] }
        { analysisId := 9, tenantId := 1, analysisType := "bias_analysis",
          initiatedById := 4, source := "upload", sourceId := 5 }
        0 (.ok [[("a", JsVal.num 1)]]) none 0).statusSets = [.processing, .completed] ∨
     (processAnalysisJob
        { analyses := [{ id := 9, tenantId := 1, status := .queued, resultsPath := none }],
          datasets := [], activities := [] }
        { analysisId := 9, tenantId := 1, analysisType := "bias_analysis",
          initiatedById := 4, source := "upload", sourceId := 5 }
        0 (.ok [[("a", JsVal.num 1)]]) none 0).statusSets = [.processing, .failed]) ∧
    ((queueAnalysisJob { analyses := [], datasets := [], activities := [] }
        "webhook" none (some 3) "bias_analysis" 1 4 9 true).statusSets
        = [.pending, .queued] ∨
     (queueAnalysisJob { analyses := [], datasets := [], activities := [] }
        "webhook" none (some 3) "bias_analysis" 1 4 9 true).statusSets
        = [.pending, .failed]) :=
  ⟨statusUpdate_shapes.1
      { analyses := [{ id := 9, tenantId := 1, status := .queued, resultsPath := none }],
        datasets := [], activities := [] }
      { analysisId := 9, tenantId := 1, analysisType := "bias_analysis",
        initiatedById := 4, source := "upload", sourceId := 5 }
      0 (.ok [[("a", JsVal.num 1)]]) none 0
      { id := 9, tenantId := 1, status := .queued, resultsPath := none } (by decide),
   statusUpdate_shapes.2.1 { analyses := [], datasets := [], activities := [] }
      "webhook" none (some 3) "bias_analysis" 1 4 9 true⟩

/-- Store for the C4 scenario: analysis 9 of tenant 1 is queued. -/
def storeQueued9 : Store :=
  { analyses := [{ id := 9, tenantId := 1, status := .queued, resultsPath := none }],
    datasets := [], activities := [] }

/-- Job payload bound to analysis 9 of tenant 1. -/
def jobFor9 : AnalysisJobData :=
  { analysisId := 9, tenantId := 1, analysisType := "bias_analysis",
    initiatedById := 4, source := "upload", sourceId := 5 }

/-- C4 counterexample: for an empty-input job the handler rethrows the
validation error (the catch block of analysis-processor.ts ends with
throw error so that the queue retries), and the queue's reaction to a
first failed attempt under the default configuration is a delayed retry,
not permanent failure: the empty-input failure consumes retry attempts
exactly like a retryable error, contradicting the claim's "without the
job consuming further retry attempts". -/
theorem emptyInput_consumesRetryAttempts :
    (processAnalysisJob storeQueued9 jobFor9 0 (.ok []) none 0).outcome
      = .thrown "Input data is empty" ∧
    failAttempt defaultJobOptions 0 = .delayedRetry 1 5000 := by
  refine ⟨by decide, by decide⟩

/-- C4 amended: zero input records raise the validation error "Input
data is empty" and the bound Analysis transitions (through processing)
to failed, with the failure audit entry carrying the error summary that
references the empty input — the summary string passed to
updateAnalysisStatus is discarded for a failed status, so it survives
only in the activity log; but the handler rethrows the error like every
other failure, so the job consumes a retry attempt and is retried
rather than failing permanently at once. -/
theorem emptyInput_failsAnalysis :
    analyzeBias [] none = .error "Input data is empty" ∧
    (processAnalysisJob storeQueued9 jobFor9 0 (.ok []) none 0).store.analyses
      = [{ id := 9, tenantId := 1, status := .failed, resultsPath := none }] ∧
    (processAnalysisJob storeQueued9 jobFor9 0 (.ok []) none 0).store.activities
      = [{ action := "analysis_failed",
           description := "Failed bias_analysis for upload ID 5: Input data is empty",
           entityId := 9, tenantId := 1, userId := 4 }] ∧
    strContains "Failed bias_analysis for upload ID 5: Input data is empty"
      "Input data is empty" = true ∧
    (processAnalysisJob storeQueued9 jobFor9 0 (.ok []) none 0).outcome
      = .thrown "Input data is empty" ∧
    failAttempt defaultJobOptions 0 ≠ .permanentlyFailed 1 := by
  refine ⟨by decide, by decide, by decide, by decide, by decide, by decide⟩

theorem mem_insertByKey {α : Type} (key : α → ℚ) (x z : α) (l : List α) :
    z ∈ insertByKey key x l ↔ z = x ∨ z ∈ l := by
  induction l with
  | nil => simp [insertByKey]
  | cons y ys ih =>
    rw [insertByKey]
    by_cases h : key x < key y
    · rw [if_pos h]
      simp [List.mem_cons]
    · rw [if_neg h]
      simp [List.mem_cons, ih]
      tauto

theorem insertByKey_sorted {α : Type} (key : α → ℚ) (x : α) (l : List α)
    (h : l.Pairwise (fun a b => key a ≤ key b)) :
    (insertByKey key x l).Pairwise (fun a b => key a ≤ key b) := by
  induction l with
  | nil => simp [insertByKey]
  | cons y ys ih =>
    rw [insertByKey]
    rcases List.pairwise_cons.mp h with ⟨hy, hys⟩
    by_cases hxy : key x < key y
    · rw [if_pos hxy]
      refine List.pairwise_cons.mpr ⟨?_, h⟩
      intro z hz
      rcases List.mem_cons.mp hz with rfl | hz
      · exact le_of_lt hxy
      · exact le_trans (le_of_lt hxy) (hy z hz)
    · rw [if_neg hxy]
      refine List.pairwise_cons.mpr ⟨?_, ih hys⟩
      intro z hz
      rcases (mem_insertByKey key x z ys).mp hz with rfl | hz
      · exact le_of_not_lt hxy
      · exact hy z hz

theorem sortByKey_sorted {α : Type} (key : α → ℚ) (l : List α) :
    (sortByKey key l).Pairwise (fun a b => key a ≤ key b) := by
  suffices h : ∀ acc : List α, acc.Pairwise (fun a b => key a ≤ key b) →
      (l.foldl (fun acc x => insertByKey key x acc) acc).Pairwise
        (fun a b => key a ≤ key b) by
    exact h [] (by simp)
  induction l with
  | nil => intro acc hacc; exact hacc
  | cons x xs ih =>
      intro acc hacc
      exact ih _ (insertByKey_sorted key x acc hacc)

theorem mem_sortByKey {α : Type} (key : α → ℚ) (l : List α) (z : α) :
    z ∈ sortByKey key l ↔ z ∈ l := by
  suffices h : ∀ acc : List α,
      (z ∈ l.foldl (fun acc x => insertByKey key x acc) acc ↔ z ∈ acc ∨ z ∈ l) by
    have := h []
    simpa [sortByKey] using this
  induction l with
  | nil => intro acc; simp
  | cons x xs ih =>
      intro acc
      rw [List.foldl_cons, ih (insertByKey key x acc)]
      rw [mem_insertByKey]
      simp [List.mem_cons]
      tauto

theorem pairwise_head_le_getLastD {α : Type} (key : α → ℚ) :
    ∀ (xs : List α) (x d : α),
      (x :: xs).Pairwise (fun a b => key a ≤ key b) →
      key x ≤ key ((x :: xs).getLastD d)
  | [], x, d, _ => by simp [List.getLastD]
  | y :: ys, x, d, h => by
      have h1 : key x ≤ key y := (List.pairwise_cons.mp h).1 y (by simp)
      have h2 := pairwise_head_le_getLastD key ys y d (List.pairwise_cons.mp h).2
      have hrw : (x :: y :: ys).getLastD d = (y :: ys).getLastD d := by
        simp [List.getLastD]
      rw [hrw]
      exact le_trans h1 h2

theorem getLastD_mem_cons {α : Type} :
    ∀ (xs : List α) (x d : α), (x :: xs).getLastD d ∈ x :: xs
  | [], x, d => by simp [List.getLastD]
  | y :: ys, x, d => by
      have := getLastD_mem_cons ys y d
      have hrw : (x :: y :: ys).getLastD d = (y :: ys).getLastD d := by
        simp [List.getLastD]
      rw [hrw]
      exact List.mem_cons_of_mem x this

theorem diRates_rate_nonneg (data : List Row) (oc pa : String) :
    ∀ e ∈ diRates data oc pa, 0 ≤ e.rate := by
  intro e he
  unfold diRates at he
  rcases List.mem_map.mp he with ⟨p, _, rfl⟩
  dsimp only
  split
  · exact div_nonneg (Nat.cast_nonneg _) (Nat.cast_nonneg _)
  · exact le_refl 0

/-- C6 amended: whenever calculateDisparateImpact returns a finite
ratio, that ratio lies in [0, 1]; the result is null when the guards
fire (empty data or column names, fewer than two distinct attribute
values, or a zero-population group at a sorted extreme), and when the
extreme groups are populated but the highest rate is zero the
JavaScript division 0/0 yields NaN rather than a number, so a
zero-population group that does not sort to an extreme does not make
the result absent. -/
theorem disparateImpact_val_unitInterval (data : List Row) (oc pa : String)
    (q : ℚ) (h : calculateDisparateImpact data oc pa = .val q) :
    0 ≤ q ∧ q ≤ 1 := by
  unfold calculateDisparateImpact at h
  split at h
  · exact absurd h (by simp)
  split at h
  · exact absurd h (by simp)
  split at h
  · exact absurd h (by simp)
  split at h
  · split at h <;> exact absurd h (by simp)
  rename_i hguard hgroups hcount hrate
  injection h with hq
  subst hq
  have hsorted : (diSorted data oc pa).Pairwise
      (fun a b => a.rate ≤ b.rate) := by
    unfold diSorted
    exact sortByKey_sorted (fun e => e.rate) (diRates data oc pa)
  have hne : diSorted data oc pa ≠ [] := by
    intro hnil
    apply hcount
    left
    unfold diLowest
    rw [hnil]
    rfl
  have hmemLow : diLowest data oc pa ∈ diSorted data oc pa := by
    unfold diLowest
    cases hS : diSorted data oc pa with
    | nil => exact absurd hS hne
    | cons a as => simp
  have hmemHigh : diHighest data oc pa ∈ diSorted data oc pa := by
    unfold diHighest
    cases hS : diSorted data oc pa with
    | nil => exact absurd hS hne
    | cons a as => exact getLastD_mem_cons as a _
  have hlow0 : 0 ≤ (diLowest data oc pa).rate := by
    apply diRates_rate_nonneg data oc pa
    have := hmemLow
    unfold diSorted at this
    exact (mem_sortByKey (fun e => e.rate) _ _).mp this
  have hhigh0 : 0 ≤ (diHighest data oc pa).rate := by
    apply diRates_rate_nonneg data oc pa
    have := hmemHigh
    unfold diSorted at this
    exact (mem_sortByKey (fun e => e.rate) _ _).mp this
  have hle : (diLowest data oc pa).rate ≤ (diHighest data oc pa).rate := by
    cases hS : diSorted data oc pa with
    | nil => exact absurd hS hne
    | cons a as =>
        have hp : (a :: as).Pairwise (fun x y => x.rate ≤ y.rate) := hS ▸ hsorted
        have := pairwise_head_le_getLastD (fun e => e.rate) as a
          { group := "", rate := 0, count := 0 } hp
        unfold diLowest diHighest
        rw [hS]
        simpa using this
  have hpos : 0 < (diHighest data oc pa).rate :=
    lt_of_le_of_ne hhigh0 (Ne.symm hrate)
  exact ⟨div_nonneg hlow0 hhigh0, (div_le_one hpos).mpr hle⟩

/-- Witness for disparateImpact_val_unitInterval: groups A (1 of 2
favorable) and B (1 of 1 favorable) give the ratio (1/2) / 1 = 1/2,
inside [0, 1]. -/
theorem disparateImpact_val_unitInterval_witness :
    calculateDisparateImpact
      [[("gender", .str "A"), ("approved", .str "yes")],
       [("gender", .str "A"), ("approved", .str "no")],
       [("gender", .str "B"), ("approved", .str "yes")]] "approved" "gender"
      = .val (1 / 2) ∧ (0 ≤ (1 / 2 : ℚ) ∧ (1 / 2 : ℚ) ≤ 1) :=
  ⟨by decide,
   disparateImpact_val_unitInterval
     [[("gender", .str "A"), ("approved", .str "yes")],
      [("gender", .str "A"), ("approved", .str "no")],
      [("gender", .str "B"), ("approved", .str "yes")]] "approved" "gender"
     (1 / 2) (by decide)⟩

/-- C6 counterexample: two rows, two populated groups, no favorable
outcomes: both group rates are 0, the zero-population guard does not
fire, and rates[0].rate / rates[last].rate is the JavaScript division
0/0 = NaN — the function returns NaN, which is neither null/absent nor
a ratio (so in particular not a value in [0, 1]). -/
theorem disparateImpact_nan :
    calculateDisparateImpact
      [[("gender", .str "A"), ("approved", .str "no")],
       [("gender", .str "B"), ("approved", .str "no")]] "approved" "gender"
      = .nan ∧
    DIResult.nan ≠ .null ∧ (∀ q : ℚ, DIResult.nan ≠ .val q) := by
  refine ⟨by decide, by decide, fun q h => by cases h⟩

theorem mapMo_isSome_of_forall {α β : Type} (f : α → Option β) :
    ∀ l : List α, (∀ v ∈ l, (f v).isSome) → (mapMo f l).isSome
  | [], _ => by simp [mapMo]
  | x :: xs, h => by
      rcases Option.isSome_iff_exists.mp (h x (by simp)) with ⟨y, hy⟩
      have hxs := mapMo_isSome_of_forall f xs (fun v hv => h v (by simp [hv]))
      rcases Option.isSome_iff_exists.mp hxs with ⟨ys, hys⟩
      simp [mapMo, hy, hys]

theorem map_fst_map_pair {α β : Type} (f : α → β) (l : List α) :
    (l.map (fun c => (c, f c))).map (fun p => p.1) = l := by
  induction l with
  | nil => rfl
  | cons x xs ih => simp [ih]

/-- C8 counterexample: the one-record dataset whose single column a
holds the empty string.  Its non-missing values are the empty list, so
they are (vacuously) all numeric, yet the distribution entry for a is
the count-0 early return without mean, median, standard deviation or
quartiles: the claim's per-numeric-column clause fails for a column with
no non-missing values. -/
theorem allMissingColumn_noNumericStats :
    (∀ v ∈ columnValues [[("a", JsVal.str "")]] "a", (jsToNumber v).isSome) ∧
    (calculateDistribution [[("a", JsVal.str "")]] "a").numeric = none ∧
    analyzeBias [[("a", JsVal.str "")]] none = .ok
      { totalRecords := 1,
        sensitiveAttributes := [],
        distributionStats := [("a",
          { count := 0, uniqueValues := none, distribution := none, numeric := none })],
        missingValues := [("a", 1)],
        skewedDistributions := [],
        disparateImpact := [] } := by
  refine ⟨by decide, by decide, by decide⟩

/-- C8 amended: for every nonempty record array, analyzeBias returns
exactly one distribution entry per column of the first record (in
column order), and for every column with at least one non-missing value
all of whose non-missing values convert to numbers, that entry carries
the numeric statistics record (which always includes mean, median, the
standard deviation and both quartiles); a column whose values are all
missing gets the count-0 entry without numeric statistics. -/
theorem analyzeBias_distribution_entries (data : List Row) (r : BiasResultM)
    (h : analyzeBias data none = .ok r) :
    r.distributionStats.map (fun p => p.1) = analyzeBiasColumns data ∧
    ∀ col ∈ analyzeBiasColumns data,
      (col, calculateDistribution data col) ∈ r.distributionStats ∧
      (columnValues data col ≠ [] →
        (∀ v ∈ columnValues data col, (jsToNumber v).isSome) →
        (calculateDistribution data col).numeric.isSome) := by
  unfold analyzeBias at h
  split at h
  · exact absurd h (by simp)
  rename_i hdata
  injection h with hr
  subst hr
  constructor
  · dsimp only [analyzeBiasDistributions]
    exact map_fst_map_pair _ _
  · intro col hcol
    constructor
    · dsimp only [analyzeBiasDistributions]
      exact List.mem_map.mpr ⟨col, hcol, rfl⟩
    · intro hvals hnum
      unfold calculateDistribution
      rw [if_neg, if_neg hvals]
      · dsimp only
        have hsome := mapMo_isSome_of_forall jsToNumber (columnValues data col) hnum
        rcases Option.isSome_iff_exists.mp hsome with ⟨ns, hns⟩
        simp [hns]
      · push_neg
        refine ⟨hdata, ?_⟩
        rw [List.any_eq_true]
        rcases List.mem_map.mp hcol with ⟨p, hp, rfl⟩
        exact ⟨p, hp, by simp⟩

/-- Witness for analyzeBias_distribution_entries: a two-record dataset
with one numeric column. -/
theorem analyzeBias_distribution_entries_witness :
    analyzeBias [[("age", JsVal.num 30)], [("age", JsVal.num 40)]] none
      = .ok { totalRecords := 2,
              sensitiveAttributes := ["age"],
              distributionStats := analyzeBiasDistributions
                [[("age", JsVal.num 30)], [("age", JsVal.num 40)]],
              missingValues := [],
              skewedDistributions := analyzeBiasSkewed
                [[("age", JsVal.num 30)], [("age", JsVal.num 40)]],
              disparateImpact := [] } ∧
    ((analyzeBiasDistributions [[("age", JsVal.num 30)], [("age", JsVal.num 40)]]).map
        (fun p => p.1)
      = analyzeBiasColumns [[("age", JsVal.num 30)], [("age", JsVal.num 40)]] ∧
     ∀ col ∈ analyzeBiasColumns [[("age", JsVal.num 30)], [("age", JsVal.num 40)]],
       (col, calculateDistribution [[("age", JsVal.num 30)], [("age", JsVal.num 40)]] col)
         ∈ analyzeBiasDistributions [[("age", JsVal.num 30)], [("age", JsVal.num 40)]] ∧
       (columnValues [[("age", JsVal.num 30)], [("age", JsVal.num 40)]] col ≠ [] →
         (∀ v ∈ columnValues [[("age", JsVal.num 30)], [("age", JsVal.num 40)]] col,
           (jsToNumber v).isSome) →
         (calculateDistribution [[("age", JsVal.num 30)], [("age", JsVal.num 40)]]
           col).numeric.isSome)) :=
  ⟨by rfl,
   analyzeBias_distribution_entries [[("age", JsVal.num 30)], [("age", JsVal.num 40)]]
     { totalRecords := 2,
       sensitiveAttributes := ["age"],
       distributionStats := analyzeBiasDistributions
         [[("age", JsVal.num 30)], [("age", JsVal.num 40)]],
       missingValues := [],
       skewedDistributions := analyzeBiasSkewed
         [[("age", JsVal.num 30)], [("age", JsVal.num 40)]],
       disparateImpact := [] }
     (by rfl)⟩
